import Mathlib

/-!
# Verification of the Spark Driver Mileage & Expense Tracker reporting core

Shallow embedding of `src/streamlit_app.py`. Python numeric values (odometer
readings, miles, dollar amounts) are modelled as rationals; calendar dates as a
`year/month/day` record with the proleptic Gregorian rules that Python's
`datetime.date` implements; ISO-8601 date text as `String`, compared
lexicographically by code point exactly as pandas compares Python strings.
-/

namespace SparkTracker

/-- A persisted trip record (table `trips`; the `id`, image blob and
`created_at` columns play no role in any reasoning here). -/
structure Trip where
  trip_date : String
  start_odometer : Option ℚ
  end_odometer : Option ℚ
  miles : ℚ
  notes : Option String
deriving Repr, DecidableEq

/-- A persisted expense record (table `expenses`). -/
structure Expense where
  expense_date : String
  category : String
  description : Option String
  amount : ℚ
deriving Repr, DecidableEq

/-- The rate `IRS_RATE_PER_MILE = 0.725` from line 17 of the source. -/
def IRS_RATE_PER_MILE : ℚ := 725 / 1000

/-! ## Calendar dates (model of Python `datetime.date`) -/

/-- A calendar date as Python's `datetime.date` holds it. -/
structure PyDate where
  year : Nat
  month : Nat
  day : Nat
deriving Repr, DecidableEq

/-- Gregorian leap-year rule, as implemented by Python's `datetime`. -/
def isLeap (y : Nat) : Bool :=
  y % 4 == 0 && (y % 100 != 0 || y % 400 == 0)

/-- Number of days in month `m` of year `y`. -/
def daysInMonth (y m : Nat) : Nat :=
  match m with
  | 2 => if isLeap y then 29 else 28
  | 4 | 6 | 9 | 11 => 30
  | _ => 31

/-- The day after `d` (model of `d + timedelta(days=1)`). -/
def nextDay (d : PyDate) : PyDate :=
  if d.day + 1 ≤ daysInMonth d.year d.month then ⟨d.year, d.month, d.day + 1⟩
  else if d.month + 1 ≤ 12 then ⟨d.year, d.month + 1, 1⟩
  else ⟨d.year + 1, 1, 1⟩

/-- The day before `d` (model of `d - timedelta(days=1)`). -/
def prevDay (d : PyDate) : PyDate :=
  if 2 ≤ d.day then ⟨d.year, d.month, d.day - 1⟩
  else if 2 ≤ d.month then ⟨d.year, d.month - 1, daysInMonth d.year (d.month - 1)⟩
  else ⟨d.year - 1, 12, 31⟩

/-- Model of `d + timedelta(days=n)`. -/
def addDays (d : PyDate) : Nat → PyDate
  | 0 => d
  | n + 1 => nextDay (addDays d n)

/-- Model of `d - timedelta(days=n)`. -/
def subDays (d : PyDate) : Nat → PyDate
  | 0 => d
  | n + 1 => prevDay (subDays d n)

/-- Days in the years before year `y` (proleptic Gregorian, as CPython's
`datetime._days_before_year`). -/
def daysBeforeYear (y : Nat) : Nat :=
  365 * (y - 1) + (y - 1) / 4 - (y - 1) / 100 + (y - 1) / 400

/-- Days in year `y` before the first of month `m`. -/
def daysBeforeMonth (y m : Nat) : Nat :=
  ((List.range (m - 1)).map (fun i => daysInMonth y (i + 1))).sum

/-- Proleptic Gregorian ordinal: `0001-01-01` is day 1 (CPython `toordinal`). -/
def toOrdinal (d : PyDate) : Nat :=
  daysBeforeYear d.year + daysBeforeMonth d.year d.month + d.day

/-- Model of `date.weekday()`: Monday = 0 … Sunday = 6. Day 1 (`0001-01-01`) is a
Monday. -/
def weekday (d : PyDate) : Nat :=
  (toOrdinal d + 6) % 7

/-- The ASCII digit character for `n % 10`. -/
def digitChar (n : Nat) : Char :=
  Char.ofNat (48 + n % 10)

/-- Value `n` printed as exactly `w` decimal digits with leading zeros — the
`%0wd` formatting that `date.isoformat()` uses for each field (faithful for
`n < 10 ^ w`, and Python years are at most 9999). -/
def padDigits : Nat → Nat → List Char
  | 0, _ => []
  | w + 1, n => digitChar (n / 10 ^ w) :: padDigits w (n % 10 ^ w)

/-- The character sequence of `d.isoformat()`: `YYYY-MM-DD`. -/
def isoChars (d : PyDate) : List Char :=
  padDigits 4 d.year ++ '-' :: (padDigits 2 d.month ++ '-' :: padDigits 2 d.day)

/-- The string `d.isoformat()`. -/
def PyDate.toIso (d : PyDate) : String :=
  ⟨isoChars d⟩

/-- Predicate: `d` is a date Python's `datetime.date` could hold (`MINYEAR = 1`,
`MAXYEAR = 9999`). -/
def validDate (d : PyDate) : Prop :=
  1 ≤ d.year ∧ d.year ≤ 9999 ∧ 1 ≤ d.month ∧ d.month ≤ 12 ∧
    1 ≤ d.day ∧ d.day ≤ daysInMonth d.year d.month

instance (d : PyDate) : Decidable (validDate d) := by
  unfold validDate; infer_instance

/-- Numeric key that orders `PyDate`s chronologically. -/
def dateKey (d : PyDate) : Nat :=
  (d.year * 100 + d.month) * 100 + d.day

/-! ## String comparison (Python `str` ordering, used by the pandas filter) -/

/-- Python's `<` on strings: lexicographic by code point. -/
def strLt (a b : String) : Prop :=
  List.Lex (· < ·) a.data b.data

instance (a b : String) : Decidable (strLt a b) :=
  List.Lex.decidableRel _ _ _

/-- Python's `<=` on strings (total order: `a <= b ↔ ¬ b < a`). -/
def strLe (a b : String) : Prop :=
  ¬ strLt b a

instance (a b : String) : Decidable (strLe a b) := by
  unfold strLe; infer_instance

/-! ## Aggregator (lines 131–141 and 333–337 of the source) -/

/-- Line 333: `trips[(trips.trip_date >= start.isoformat()) &
(trips.trip_date <= end.isoformat())]`. -/
def filterTripsInRange (trips : List Trip) (s e : PyDate) : List Trip :=
  trips.filter (fun t => decide (strLe s.toIso t.trip_date) &&
    decide (strLe t.trip_date e.toIso))

/-- Line 334: the same filter on expenses. -/
def filterExpensesInRange (expenses : List Expense) (s e : PyDate) : List Expense :=
  expenses.filter (fun x => decide (strLe s.toIso x.expense_date) &&
    decide (strLe x.expense_date e.toIso))

/-- Line 131: `trips_df["miles"].sum() if not trips_df.empty else 0`. -/
def totalMiles (trips : List Trip) : ℚ :=
  if trips.isEmpty then 0 else (trips.map Trip.miles).sum

/-- Line 133: `expenses_df["amount"].sum() if not expenses_df.empty else 0`. -/
def totalExpenses (expenses : List Expense) : ℚ :=
  if expenses.isEmpty then 0 else (expenses.map Expense.amount).sum

/-- Line 132: `total_deduction = total_miles * IRS_RATE_PER_MILE`. -/
def totalDeduction (trips : List Trip) : ℚ :=
  totalMiles trips * IRS_RATE_PER_MILE

/-- The derived ReportSummary triple `(total_miles, deduction, total_expenses)`
as `generate_irs_pdf` computes it. -/
def reportSummary (trips : List Trip) (expenses : List Expense) : ℚ × ℚ × ℚ :=
  (totalMiles trips, totalDeduction trips, totalExpenses expenses)

/-! ## Range Resolver (`get_quick_range`, lines 297–311, and the `Custom`
branch of `show_reports`, lines 326–331) -/

/-- Lines 297–311.  The source reads `date.today()`; here `today` is an
explicit argument, so the claims can quantify over it. -/
def get_quick_range (name : String) (today : PyDate) : PyDate × PyDate :=
  if name = "This Week (Mon-Sun)" then
    let start := subDays today (weekday today)
    (start, addDays start 6)
  else if name = "This Month" then
    let start : PyDate := ⟨today.year, today.month, 1⟩
    let e : PyDate := addDays ⟨today.year, today.month, 28⟩ 4
    (start, subDays ⟨e.year, e.month, 1⟩ 1)
  else if name = "This Year" then
    (⟨today.year, 1, 1⟩, ⟨today.year, 12, 31⟩)
  else
    (today, today)

/-- Lines 326–331 of `show_reports`: `Custom` passes the two date-picker
values straight through; any other selector goes to `get_quick_range`. -/
def resolveRange (quick : String) (customStart customEnd today : PyDate) :
    PyDate × PyDate :=
  if quick = "Custom" then (customStart, customEnd)
  else get_quick_range quick today

/-! ## Form submissions (`show_log_trip` lines 249–267, `show_log_expense`
lines 283–291).  Each submission either appends one record to the stored
list and reports no error, or leaves the list unchanged and reports the
inline error message. -/

/-- The values a user has put into the Log Trip form. -/
structure TripForm where
  trip_date : PyDate
  start : ℚ
  endOdo : ℚ
  miles : ℚ
  notes : String
deriving Repr, DecidableEq

/-- The values a user has put into the Log Expense form. -/
structure ExpenseForm where
  expense_date : PyDate
  category : String
  desc : String
  amount : ℚ
deriving Repr, DecidableEq

/-- Lines 249–267: resolve the miles value (auto-calculation when the miles
input is 0 and `end > start`), reject when it stays 0, otherwise insert. -/
def submitTrip (db : List Trip) (f : TripForm) : List Trip × Option String :=
  if f.miles = 0 ∧ f.start < f.endOdo then
    (db ++ [{ trip_date := f.trip_date.toIso,
              start_odometer := if 0 < f.start then some f.start else none,
              end_odometer := if 0 < f.endOdo then some f.endOdo else none,
              miles := f.endOdo - f.start,
              notes := some f.notes }], none)
  else if f.miles = 0 then
    (db, some ("Enter miles OR valid odometer readings."))
  else
    (db ++ [{ trip_date := f.trip_date.toIso,
              start_odometer := if 0 < f.start then some f.start else none,
              end_odometer := if 0 < f.endOdo then some f.endOdo else none,
              miles := f.miles,
              notes := some f.notes }], none)

/-- Lines 283–291: reject a non-positive amount, otherwise insert. -/
def submitExpense (db : List Expense) (f : ExpenseForm) :
    List Expense × Option String :=
  if f.amount ≤ 0 then
    (db, some ("Enter valid amount."))
  else
    (db ++ [{ expense_date := f.expense_date.toIso,
              category := f.category,
              description := some f.desc,
              amount := f.amount }], none)

/-! ## Report Renderer text handling (lines 161 and 183) -/

/-- Line 161: `(row["notes"] or "")[:70]` — a missing (`None`) note becomes
`""`, then the first 70 characters are kept. -/
def renderNoteCell (notes : Option String) : String :=
  ⟨((notes.getD ("")).data.take 70)⟩

/-- Line 183: `(row["description"] or "")[:70]`, identically. -/
def renderDescriptionCell (description : Option String) : String :=
  ⟨((description.getD ("")).data.take 70)⟩

/-! ## Lexicographic facts about ISO-8601 date text -/

/-- ASCII digit characters compare like the digits they denote. -/
lemma digitChar_lt_digitChar : ∀ a < 10, ∀ b < 10, a < b → digitChar a < digitChar b := by
  decide

lemma padDigits_length (w n : Nat) : (padDigits w n).length = w := by
  induction w generalizing n with
  | zero => rfl
  | succ w ih => simp [padDigits, ih]

/-- Fixed-width zero-padded decimal rendering is strictly monotone under the
lexicographic character order. -/
lemma padDigits_lt (w : Nat) : ∀ a b : Nat, a < b → b < 10 ^ w →
    List.Lex (· < ·) (padDigits w a) (padDigits w b) := by
  induction w with
  | zero => intro a b h hb; omega
  | succ w ih =>
    intro a b h hb
    have hpow : 0 < 10 ^ w := Nat.pos_pow_of_pos w (by norm_num)
    have hb10 : b / 10 ^ w < 10 := by
      rw [Nat.div_lt_iff_lt_mul hpow]
      calc b < 10 ^ (w + 1) := hb
        _ = 10 * 10 ^ w := by ring
    have hdiv : a / 10 ^ w ≤ b / 10 ^ w := Nat.div_le_div_right h.le
    simp only [padDigits]
    rcases Nat.lt_or_eq_of_le hdiv with hlt | heq
    · exact List.Lex.rel
        (digitChar_lt_digitChar _ (lt_of_le_of_lt hdiv hb10) _ hb10 hlt)
    · rw [heq]
      refine List.Lex.cons (ih _ _ ?_ (Nat.mod_lt _ hpow))
      have h1 := Nat.div_add_mod a (10 ^ w)
      have h2 := Nat.div_add_mod b (10 ^ w)
      rw [heq] at h1
      omega

/-- A lexicographic comparison of equal-length chunks survives appending
arbitrary tails. -/
lemma lex_append_of_lex {a b : List Char} (h : List.Lex (· < ·) a b) :
    ∀ (u v : List Char), a.length = b.length →
      List.Lex (· < ·) (a ++ u) (b ++ v) := by
  induction h with
  | nil => intro u v hlen; simp at hlen
  | rel hr => intro u v hlen; exact List.Lex.rel hr
  | cons h ih => intro u v hlen; exact List.Lex.cons (ih u v (by simpa using hlen))

/-- ISO-8601 rendering is strictly monotone: a chronologically earlier valid
date yields a lexicographically smaller string.  (Bounds: Python months and
days always render as two digits, years as four.) -/
lemma isoChars_lt_isoChars (d₁ d₂ : PyDate)
    (h₁y : d₁.year ≤ 9999) (h₂y : d₂.year ≤ 9999)
    (h₁m : d₁.month ≤ 99) (h₂m : d₂.month ≤ 99)
    (h₁d : d₁.day ≤ 99) (h₂d : d₂.day ≤ 99)
    (hk : dateKey d₁ < dateKey d₂) :
    List.Lex (· < ·) (isoChars d₁) (isoChars d₂) := by
  obtain ⟨y₁, m₁, a₁⟩ := d₁
  obtain ⟨y₂, m₂, a₂⟩ := d₂
  simp only [dateKey] at hk
  simp only at h₁y h₂y h₁m h₂m h₁d h₂d
  unfold isoChars
  simp only
  rcases Nat.lt_or_ge y₁ y₂ with hy | hy
  · exact lex_append_of_lex (padDigits_lt 4 y₁ y₂ hy (by omega)) _ _
      (by rw [padDigits_length, padDigits_length])
  · have hyy : y₁ = y₂ := by omega
    subst hyy
    apply List.Lex.append_left
    rcases Nat.lt_or_ge m₁ m₂ with hm | hm
    · exact List.Lex.cons (lex_append_of_lex (padDigits_lt 2 m₁ m₂ hm (by omega)) _ _
        (by rw [padDigits_length, padDigits_length]))
    · have hmm : m₁ = m₂ := by omega
      subst hmm
      have ha : a₁ < a₂ := by omega
      exact List.Lex.cons (List.Lex.append_left _ (List.Lex.cons
        (padDigits_lt 2 a₁ a₂ ha (by omega))) _)

/-- The string form of monotonicity, phrased with the Python `<`. -/
lemma toIso_strLt_toIso {d₁ d₂ : PyDate}
    (h₁y : d₁.year ≤ 9999) (h₂y : d₂.year ≤ 9999)
    (h₁m : d₁.month ≤ 99) (h₂m : d₂.month ≤ 99)
    (h₁d : d₁.day ≤ 99) (h₂d : d₂.day ≤ 99)
    (hk : dateKey d₁ < dateKey d₂) :
    strLt d₁.toIso d₂.toIso :=
  isoChars_lt_isoChars d₁ d₂ h₁y h₂y h₁m h₂m h₁d h₂d hk

/-! ## Calendar lemmas -/

lemma daysInMonth_le_31 (y m : Nat) : daysInMonth y m ≤ 31 := by
  unfold daysInMonth
  split <;> (try split_ifs) <;> omega

lemma daysInMonth_pos (y m : Nat) : 28 ≤ daysInMonth y m := by
  unfold daysInMonth
  split <;> (try split_ifs) <;> omega

/-- Stepping one day forward strictly increases the chronological key. -/
lemma dateKey_lt_dateKey_nextDay (d : PyDate) (hv : validDate d) :
    dateKey d < dateKey (nextDay d) := by
  obtain ⟨y, m, a⟩ := d
  obtain ⟨hy1, hy2, hm1, hm2, hd1, hd2⟩ := hv
  simp only at hy1 hy2 hm1 hm2 hd1 hd2
  have h31 : daysInMonth y m ≤ 31 := daysInMonth_le_31 y m
  simp only [nextDay, dateKey]
  split_ifs <;> simp only <;> omega

/-- The successor of a valid date below the Python year cap is valid. -/
lemma nextDay_validDate (d : PyDate) (hv : validDate d) (hy : d.year ≤ 9998) :
    validDate (nextDay d) := by
  obtain ⟨y, m, a⟩ := d
  obtain ⟨hy1, hy2, hm1, hm2, hd1, hd2⟩ := hv
  simp only at hy1 hy2 hm1 hm2 hd1 hd2 hy
  have hp1 := daysInMonth_pos y (m + 1)
  have hp2 := daysInMonth_pos (y + 1) 1
  simp only [nextDay]
  split_ifs with h1 h2 <;>
    refine ⟨?_, ?_, ?_, ?_, ?_, ?_⟩ <;> simp only <;> omega

/-- The ISO string of a valid date is lexicographically strictly below the
ISO string of the following day. -/
lemma strLt_toIso_nextDay (d : PyDate) (hv : validDate d) (hy : d.year ≤ 9998) :
    strLt d.toIso (nextDay d).toIso := by
  have hk := dateKey_lt_dateKey_nextDay d hv
  have hv' := nextDay_validDate d hv hy
  obtain ⟨_, _, _, hm2, _, hd2⟩ := hv
  obtain ⟨_, hy2', _, hm2', _, hd2'⟩ := hv'
  refine toIso_strLt_toIso ?_ ?_ ?_ ?_ ?_ ?_ hk
  · omega
  · exact hy2'
  · omega
  · omega
  · exact le_trans hd2 (le_trans (daysInMonth_le_31 _ _) (by norm_num))
  · exact le_trans hd2' (le_trans (daysInMonth_le_31 _ _) (by norm_num))

/-! ## Aggregator lemmas -/

/-- Membership in the filtered trip list, unfolded. -/
lemma mem_filterTripsInRange {trips : List Trip} {s e : PyDate} {t : Trip} :
    t ∈ filterTripsInRange trips s e ↔
      t ∈ trips ∧ strLe s.toIso t.trip_date ∧ strLe t.trip_date e.toIso := by
  simp [filterTripsInRange, List.mem_filter]

/-- Membership in the filtered expense list, unfolded. -/
lemma mem_filterExpensesInRange {expenses : List Expense} {s e : PyDate}
    {x : Expense} :
    x ∈ filterExpensesInRange expenses s e ↔
      x ∈ expenses ∧ strLe s.toIso x.expense_date ∧ strLe x.expense_date e.toIso := by
  simp [filterExpensesInRange, List.mem_filter]

/-- Two non-strict Python string bounds chain with a strict one
(totality of the code-point order). -/
lemma strLe_trans_absurd {a t b : String}
    (hat : strLe a t) (htb : strLe t b) (hba : strLt b a) : False := by
  rcases trichotomous_of
      (List.Lex (· < ·) : List Char → List Char → Prop) b.data t.data with h | h | h
  · exact htb h
  · exact hat (by unfold strLt; rw [← h]; exact hba)
  · exact hat (IsTrans.trans (r := (List.Lex (· < ·) : List Char → List Char → Prop))
      t.data b.data a.data h hba)

/-- Lexicographic comparison by code point never relates a list to itself. -/
lemma lex_irrefl (l : List Char) : ¬ List.Lex (· < ·) l l := by
  intro h
  induction l with
  | nil => cases h
  | cons c cs ih =>
    cases h with
    | rel hr => exact lt_irrefl _ hr
    | cons h => exact ih h

/-- Python's `<=` on strings is reflexive. -/
lemma strLe_refl (a : String) : strLe a a :=
  lex_irrefl a.data

/-- The `This Month` branch of `get_quick_range`, evaluated: start is day 1,
and the `day-28 + 4 days, then back to the previous month's last day` dance
lands exactly on the last day of `today`'s month. -/
lemma gqr_thisMonth (today : PyDate) (hm1 : 1 ≤ today.month) (hm2 : today.month ≤ 12) :
    get_quick_range ("This Month") today =
      (⟨today.year, today.month, 1⟩,
       ⟨today.year, today.month, daysInMonth today.year today.month⟩) := by
  obtain ⟨y, m, d⟩ := today
  simp only at hm1 hm2
  unfold get_quick_range
  rw [if_neg (by decide), if_pos rfl]
  simp only
  interval_cases m <;>
    cases hl : isLeap y <;>
      simp [addDays, subDays, nextDay, prevDay, daysInMonth, hl]

/-! ## The claims -/

/-- C1.  The reported deduction is always `total_miles × 0.725`
(`IRS_RATE_PER_MILE`), and the product is exact at the sample total-miles
values 0, 1 and 123.45 — the arithmetic of line 132 introduces no
adjustment, rounding or offset. -/
theorem deduction_is_miles_times_rate :
    (∀ trips : List Trip, totalDeduction trips = totalMiles trips * (0.725 : ℚ))
    ∧ (∀ trips : List Trip, totalMiles trips = 0 → totalDeduction trips = 0)
    ∧ (∀ trips : List Trip, totalMiles trips = 1 → totalDeduction trips = (0.725 : ℚ))
    ∧ (∀ trips : List Trip, totalMiles trips = (123.45 : ℚ) →
        totalDeduction trips = (89.50125 : ℚ)) := by
  refine ⟨fun trips => ?_, fun trips h => ?_, fun trips h => ?_, fun trips h => ?_⟩ <;>
    unfold totalDeduction IRS_RATE_PER_MILE <;>
    (try rw [h]) <;> norm_num

/-- Witness for C1: one trip of 123.45 miles gives a deduction of exactly
89.50125. -/
theorem deduction_is_miles_times_rate_witness :
    totalMiles [⟨("2024-01-01"), none, none, (123.45 : ℚ), none⟩] = (123.45 : ℚ)
    ∧ totalDeduction [⟨("2024-01-01"), none, none, (123.45 : ℚ), none⟩] =
        (89.50125 : ℚ) :=
  ⟨by norm_num [totalMiles],
   deduction_is_miles_times_rate.2.2.2 _ (by norm_num [totalMiles])⟩

/-- C2.  The pandas filter of lines 333–334 keeps exactly the records whose
date string lies between `start.isoformat()` and `end.isoformat()` in the
lexicographic string order, inclusively at both ends: a trip dated exactly
`end` passes, and a trip dated `end + 1 day` is rejected (its ISO string is
lexicographically strictly greater). -/
theorem aggregator_inclusive_range_filter (trips : List Trip)
    (expenses : List Expense) (s e : PyDate)
    (hv : validDate e) (hy : e.year ≤ 9998) :
    (∀ t, t ∈ filterTripsInRange trips s e ↔
        t ∈ trips ∧ strLe s.toIso t.trip_date ∧ strLe t.trip_date e.toIso)
    ∧ (∀ x, x ∈ filterExpensesInRange expenses s e ↔
        x ∈ expenses ∧ strLe s.toIso x.expense_date ∧ strLe x.expense_date e.toIso)
    ∧ (∀ t, t ∈ trips → t.trip_date = e.toIso → strLe s.toIso e.toIso →
        t ∈ filterTripsInRange trips s e)
    ∧ (∀ t, t.trip_date = (nextDay e).toIso → t ∉ filterTripsInRange trips s e) := by
  refine ⟨fun t => mem_filterTripsInRange, fun x => mem_filterExpensesInRange,
    fun t ht hdate hse => ?_, fun t hdate hmem => ?_⟩
  · refine mem_filterTripsInRange.mpr ⟨ht, ?_, ?_⟩
    · rw [hdate]; exact hse
    · rw [hdate]; exact strLe_refl _
  · obtain ⟨-, -, hub⟩ := mem_filterTripsInRange.mp hmem
    rw [hdate] at hub
    exact hub (strLt_toIso_nextDay e hv hy)

/-- Witness for C2: with the range 2024-01-01 … 2024-01-31, a trip dated
2024-01-31 (exactly `end`) is kept and a trip dated 2024-02-01
(`end + 1 day`) is dropped. -/
theorem aggregator_inclusive_range_filter_witness :
    (⟨(⟨2024, 1, 31⟩ : PyDate).toIso, none, none, 12, none⟩ : Trip) ∈
      filterTripsInRange
        [⟨(⟨2024, 1, 31⟩ : PyDate).toIso, none, none, 12, none⟩,
         ⟨(⟨2024, 2, 1⟩ : PyDate).toIso, none, none, 7, none⟩]
        ⟨2024, 1, 1⟩ ⟨2024, 1, 31⟩
    ∧ (⟨(⟨2024, 2, 1⟩ : PyDate).toIso, none, none, 7, none⟩ : Trip) ∉
      filterTripsInRange
        [⟨(⟨2024, 1, 31⟩ : PyDate).toIso, none, none, 12, none⟩,
         ⟨(⟨2024, 2, 1⟩ : PyDate).toIso, none, none, 7, none⟩]
        ⟨2024, 1, 1⟩ ⟨2024, 1, 31⟩ :=
  ⟨(aggregator_inclusive_range_filter _ [] _ _ (by decide) (by norm_num)).2.2.1 _
      (by simp) rfl (by decide),
   (aggregator_inclusive_range_filter _ [] _ _ (by decide) (by norm_num)).2.2.2 _
      (by decide)⟩

/-- C3.  For every `today` (any month length, any year), `This Month`
resolves to (first day of today's month, last day of today's month); in
particular 2024-02-15 gives (2024-02-01, 2024-02-29) and 2023-02-15 gives
(2023-02-01, 2023-02-28). -/
theorem thisMonth_range :
    (∀ today : PyDate, 1 ≤ today.month → today.month ≤ 12 →
      get_quick_range ("This Month") today =
        (⟨today.year, today.month, 1⟩,
         ⟨today.year, today.month, daysInMonth today.year today.month⟩))
    ∧ get_quick_range ("This Month") ⟨2024, 2, 15⟩ = (⟨2024, 2, 1⟩, ⟨2024, 2, 29⟩)
    ∧ get_quick_range ("This Month") ⟨2023, 2, 15⟩ = (⟨2023, 2, 1⟩, ⟨2023, 2, 28⟩) :=
  ⟨gqr_thisMonth, by decide, by decide⟩

/-- Witness for C3's quantified part, at today = 2025-06-10 (a 30-day
month). -/
theorem thisMonth_range_witness :
    1 ≤ (⟨2025, 6, 10⟩ : PyDate).month ∧ (⟨2025, 6, 10⟩ : PyDate).month ≤ 12 ∧
    get_quick_range ("This Month") ⟨2025, 6, 10⟩ = (⟨2025, 6, 1⟩, ⟨2025, 6, 30⟩) :=
  ⟨by decide, by decide,
    (thisMonth_range.1 ⟨2025, 6, 10⟩ (by decide) (by decide)).trans (by decide)⟩

/-- C4.  When the filtered subsets for a range are empty, the summary totals
are plain zeros — the `if … else 0` of lines 131/133/336/337 never errors. -/
theorem empty_filtered_totals_zero (trips : List Trip) (expenses : List Expense)
    (s e : PyDate)
    (ht : filterTripsInRange trips s e = [])
    (he : filterExpensesInRange expenses s e = []) :
    totalMiles (filterTripsInRange trips s e) = 0
    ∧ totalExpenses (filterExpensesInRange expenses s e) = 0 := by
  rw [ht, he]
  exact ⟨rfl, rfl⟩

/-- Witness for C4: a May trip and a May expense, reported over January —
both filters come out empty and both totals are 0. -/
theorem empty_filtered_totals_zero_witness :
    filterTripsInRange [⟨(⟨2024, 5, 1⟩ : PyDate).toIso, none, none, 3, none⟩]
      ⟨2024, 1, 1⟩ ⟨2024, 1, 31⟩ = []
    ∧ filterExpensesInRange [⟨(⟨2024, 5, 1⟩ : PyDate).toIso, "Gas", none, 40⟩]
      ⟨2024, 1, 1⟩ ⟨2024, 1, 31⟩ = []
    ∧ (totalMiles (filterTripsInRange
          [⟨(⟨2024, 5, 1⟩ : PyDate).toIso, none, none, 3, none⟩]
          ⟨2024, 1, 1⟩ ⟨2024, 1, 31⟩) = 0
      ∧ totalExpenses (filterExpensesInRange
          [⟨(⟨2024, 5, 1⟩ : PyDate).toIso, "Gas", none, 40⟩]
          ⟨2024, 1, 1⟩ ⟨2024, 1, 31⟩) = 0) :=
  ⟨by decide, by decide,
    empty_filtered_totals_zero _ _ _ _ (by decide) (by decide)⟩

/-- C5.  With a zero miles input and odometer readings `end > start ≥ 0`,
saving the trip persists exactly one new record whose miles value is the
exact difference `end − start`. -/
theorem auto_calculated_miles (db : List Trip) (f : TripForm)
    (_h0 : 0 ≤ f.start) (_h1 : 0 ≤ f.endOdo) (hlt : f.start < f.endOdo)
    (hm : f.miles = 0) :
    ∃ r : Trip, submitTrip db f = (db ++ [r], none)
      ∧ r.miles = f.endOdo - f.start := by
  have h : submitTrip db f =
      (db ++ [{ trip_date := f.trip_date.toIso,
                start_odometer := if 0 < f.start then some f.start else none,
                end_odometer := if 0 < f.endOdo then some f.endOdo else none,
                miles := f.endOdo - f.start,
                notes := some f.notes }], none) := by
    unfold submitTrip
    rw [if_pos ⟨hm, hlt⟩]
  exact ⟨_, h, rfl⟩

/-- Witness for C5: start 100, end 150, miles input 0 → one saved record of
exactly 50 miles. -/
theorem auto_calculated_miles_witness :
    0 ≤ ((⟨⟨2024, 3, 10⟩, 100, 150, 0, ""⟩ : TripForm)).start
    ∧ (0 : ℚ) ≤ ((⟨⟨2024, 3, 10⟩, 100, 150, 0, ""⟩ : TripForm)).endOdo
    ∧ ((⟨⟨2024, 3, 10⟩, 100, 150, 0, ""⟩ : TripForm)).start <
        ((⟨⟨2024, 3, 10⟩, 100, 150, 0, ""⟩ : TripForm)).endOdo
    ∧ (∃ r : Trip,
        submitTrip [] ⟨⟨2024, 3, 10⟩, 100, 150, 0, ""⟩ = ([] ++ [r], none)
        ∧ r.miles = ((⟨⟨2024, 3, 10⟩, 100, 150, 0, ""⟩ : TripForm)).endOdo -
            ((⟨⟨2024, 3, 10⟩, 100, 150, 0, ""⟩ : TripForm)).start) :=
  ⟨by norm_num, by norm_num, by norm_num,
    auto_calculated_miles [] _ (by norm_num) (by norm_num) (by norm_num) rfl⟩

/-- C6.  An invalid submission — a trip with miles input 0 and `end ≤ start`,
or an expense with amount ≤ 0 — produces the inline error message and leaves
the stored list exactly as it was. -/
theorem invalid_submission_rejected :
    (∀ (db : List Trip) (f : TripForm), f.miles = 0 → f.endOdo ≤ f.start →
      submitTrip db f = (db, some ("Enter miles OR valid odometer readings.")))
    ∧ (∀ (db : List Expense) (g : ExpenseForm), g.amount ≤ 0 →
      submitExpense db g = (db, some ("Enter valid amount."))) := by
  constructor
  · intro db f hm hle
    unfold submitTrip
    rw [if_neg (fun h => absurd h.2 (not_lt.mpr hle)), if_pos hm]
  · intro db g ha
    unfold submitExpense
    rw [if_pos ha]

/-- Witness for C6: zero-miles trip with equal odometers, and a zero-amount
expense, both against a one-record store — the store is returned unchanged
with the error text. -/
theorem invalid_submission_rejected_witness :
    submitTrip [⟨(⟨2024, 1, 2⟩ : PyDate).toIso, none, none, 9, none⟩]
        ⟨⟨2024, 3, 10⟩, 5, 5, 0, ""⟩ =
      ([⟨(⟨2024, 1, 2⟩ : PyDate).toIso, none, none, 9, none⟩],
       some ("Enter miles OR valid odometer readings."))
    ∧ submitExpense [⟨(⟨2024, 1, 2⟩ : PyDate).toIso, "Gas", none, 12⟩]
        ⟨⟨2024, 3, 10⟩, "Gas", "", 0⟩ =
      ([⟨(⟨2024, 1, 2⟩ : PyDate).toIso, "Gas", none, 12⟩],
       some ("Enter valid amount.")) :=
  ⟨invalid_submission_rejected.1 _ _ rfl (by norm_num),
   invalid_submission_rejected.2 _ _ (by norm_num)⟩

/-- C7.  `Custom` mode hands the caller's two dates through untouched — no
ordering check anywhere — and an inverted range (`start` after `end`)
filters every trip and expense out, producing empty subsets instead of an
error. -/
theorem custom_range_passthrough (customStart customEnd today : PyDate)
    (trips : List Trip) (expenses : List Expense)
    (hvs : validDate customStart) (hve : validDate customEnd)
    (hinv : dateKey customEnd < dateKey customStart) :
    resolveRange ("Custom") customStart customEnd today = (customStart, customEnd)
    ∧ filterTripsInRange trips customStart customEnd = []
    ∧ filterExpensesInRange expenses customStart customEnd = [] := by
  have hlt : strLt customEnd.toIso customStart.toIso := by
    obtain ⟨h1, h2, h3, h4, h5, h6⟩ := hvs
    obtain ⟨g1, g2, g3, g4, g5, g6⟩ := hve
    exact toIso_strLt_toIso g2 h2 (by omega) (by omega)
      (le_trans g6 (le_trans (daysInMonth_le_31 _ _) (by norm_num)))
      (le_trans h6 (le_trans (daysInMonth_le_31 _ _) (by norm_num))) hinv
  refine ⟨rfl, ?_, ?_⟩
  · rw [filterTripsInRange, List.filter_eq_nil_iff]
    intro t ht
    simp only [Bool.and_eq_true, decide_eq_true_eq, not_and]
    exact fun hs hePred => strLe_trans_absurd hs hePred hlt
  · rw [filterExpensesInRange, List.filter_eq_nil_iff]
    intro x hx
    simp only [Bool.and_eq_true, decide_eq_true_eq, not_and]
    exact fun hs hePred => strLe_trans_absurd hs hePred hlt

/-- Witness for C7: range 2024-05-01 … 2024-01-01 (inverted), with one trip
and one expense both dated inside the year — everything is filtered out. -/
theorem custom_range_passthrough_witness :
    validDate ⟨2024, 5, 1⟩ ∧ validDate ⟨2024, 1, 1⟩
    ∧ dateKey ⟨2024, 1, 1⟩ < dateKey ⟨2024, 5, 1⟩
    ∧ (resolveRange ("Custom") ⟨2024, 5, 1⟩ ⟨2024, 1, 1⟩ ⟨2024, 6, 1⟩ =
          (⟨2024, 5, 1⟩, ⟨2024, 1, 1⟩)
      ∧ filterTripsInRange [⟨(⟨2024, 3, 10⟩ : PyDate).toIso, none, none, 50, none⟩]
          ⟨2024, 5, 1⟩ ⟨2024, 1, 1⟩ = []
      ∧ filterExpensesInRange [⟨(⟨2024, 3, 10⟩ : PyDate).toIso, "Gas", none, 40⟩]
          ⟨2024, 5, 1⟩ ⟨2024, 1, 1⟩ = []) :=
  ⟨by decide, by decide, by decide,
    custom_range_passthrough _ _ _ _ _ (by decide) (by decide) (by decide)⟩

/-- C8.  A rendered note or description cell is the first 70 characters of
the stored text (`(x or "")[:70]`): a missing value renders as the empty
string, the cell always holds `min 70 (length)` characters, and a
100-character text is cut to exactly 70. -/
theorem note_truncation :
    renderNoteCell none = ""
    ∧ renderDescriptionCell none = ""
    ∧ (∀ s : String, (renderNoteCell (some s)).data = s.data.take 70)
    ∧ (∀ s : String, (renderDescriptionCell (some s)).data = s.data.take 70)
    ∧ (∀ s : String, (renderNoteCell (some s)).length = min 70 s.length)
    ∧ (∀ s : String, s.length = 100 → (renderNoteCell (some s)).length = 70)
    ∧ (∀ s : String, s.length = 100 → (renderDescriptionCell (some s)).length = 70) := by
  refine ⟨rfl, rfl, fun s => rfl, fun s => rfl, fun s => ?_, fun s h => ?_,
    fun s h => ?_⟩ <;>
  · obtain ⟨l⟩ := s
    simp_all [renderNoteCell, renderDescriptionCell, String.length, List.length_take]

/-- Witness for C8: a 100-character note is rendered as exactly 70
characters. -/
theorem note_truncation_witness :
    (⟨List.replicate 100 'a'⟩ : String).length = 100
    ∧ (renderNoteCell (some ⟨List.replicate 100 'a'⟩)).length = 70 :=
  ⟨by decide, note_truncation.2.2.2.2.2.1 ⟨List.replicate 100 'a'⟩ (by decide)⟩

/-- C9.  Any selector name outside the three recognized quick ranges falls
through to `start = end = today`; `get_quick_range` is a total function and
raises nothing. -/
theorem unrecognized_selector_fallback (name : String) (today : PyDate)
    (h1 : name ≠ "This Week (Mon-Sun)") (h2 : name ≠ "This Month")
    (h3 : name ≠ "This Year") :
    get_quick_range name today = (today, today) := by
  unfold get_quick_range
  rw [if_neg h1, if_neg h2, if_neg h3]

/-- Witness for C9: the unrecognized selector `Last Month` returns
(today, today). -/
theorem unrecognized_selector_fallback_witness :
    ("Last Month" : String) ≠ "This Week (Mon-Sun)"
    ∧ ("Last Month" : String) ≠ "This Month"
    ∧ ("Last Month" : String) ≠ "This Year"
    ∧ get_quick_range ("Last Month") ⟨2024, 7, 4⟩ = (⟨2024, 7, 4⟩, ⟨2024, 7, 4⟩) :=
  ⟨by decide, by decide, by decide,
    unrecognized_selector_fallback ("Last Month") ⟨2024, 7, 4⟩
      (by decide) (by decide) (by decide)⟩

/-- C10 as stated is false: the Save Trip handler never checks the sign of a
nonzero miles input, so a negative miles value is persisted unchanged.
Concretely, miles input −5 with both odometers 0 is saved as a −5-mile
trip. -/
theorem trip_nonneg_miles_cex :
    (submitTrip [] ⟨⟨2024, 1, 1⟩, 0, 0, -5, ""⟩).2 = none
    ∧ (submitTrip [] ⟨⟨2024, 1, 1⟩, 0, 0, -5, ""⟩).1.map Trip.miles = [-5]
    ∧ ¬ (0 : ℚ) ≤ -5 := by
  decide

/-- C10 amended.  A successful trip submission appends exactly one record;
its miles value is the exact positive difference `end − start` when the
miles input was 0, and otherwise is the miles input verbatim — positive or
not.  Non-negativity is only guaranteed on the auto-calculated path. -/
theorem persisted_trip_miles_characterization (db : List Trip) (f : TripForm)
    (h : (submitTrip db f).2 = none) :
    ∃ r : Trip, (submitTrip db f).1 = db ++ [r]
      ∧ (f.miles = 0 → r.miles = f.endOdo - f.start ∧ 0 < r.miles)
      ∧ (f.miles ≠ 0 → r.miles = f.miles) := by
  by_cases h1 : f.miles = 0 ∧ f.start < f.endOdo
  · refine ⟨{ trip_date := f.trip_date.toIso,
              start_odometer := if 0 < f.start then some f.start else none,
              end_odometer := if 0 < f.endOdo then some f.endOdo else none,
              miles := f.endOdo - f.start,
              notes := some f.notes }, ?_,
      fun _ => ⟨rfl, sub_pos.mpr h1.2⟩, fun hne => absurd h1.1 hne⟩
    unfold submitTrip
    rw [if_pos h1]
  · by_cases h2 : f.miles = 0
    · exfalso
      unfold submitTrip at h
      rw [if_neg h1, if_pos h2] at h
      simp at h
    · refine ⟨{ trip_date := f.trip_date.toIso,
                start_odometer := if 0 < f.start then some f.start else none,
                end_odometer := if 0 < f.endOdo then some f.endOdo else none,
                miles := f.miles,
                notes := some f.notes }, ?_,
        fun h0 => absurd h0 h2, fun _ => rfl⟩
      unfold submitTrip
      rw [if_neg h1, if_neg h2]

/-- Witness for the amended C10: a direct 7-mile entry is persisted with
miles exactly 7. -/
theorem persisted_trip_miles_characterization_witness :
    (submitTrip [] ⟨⟨2024, 1, 1⟩, 0, 0, 7, ""⟩).2 = none
    ∧ (∃ r : Trip, (submitTrip [] ⟨⟨2024, 1, 1⟩, 0, 0, 7, ""⟩).1 = [] ++ [r]
      ∧ (((⟨⟨2024, 1, 1⟩, 0, 0, 7, ""⟩ : TripForm)).miles = 0 →
          r.miles = ((⟨⟨2024, 1, 1⟩, 0, 0, 7, ""⟩ : TripForm)).endOdo -
            ((⟨⟨2024, 1, 1⟩, 0, 0, 7, ""⟩ : TripForm)).start ∧ 0 < r.miles)
      ∧ (((⟨⟨2024, 1, 1⟩, 0, 0, 7, ""⟩ : TripForm)).miles ≠ 0 →
          r.miles = ((⟨⟨2024, 1, 1⟩, 0, 0, 7, ""⟩ : TripForm)).miles)) :=
  ⟨by decide, persisted_trip_miles_characterization [] _ (by decide)⟩

end SparkTracker
